import Mathlib

/-
  Verification of the voice-input client and its leaf services.

  Shallow embedding of:
  - src/main.rs            (CLI dispatch, resolve_direct_input_flag, relay)
  - src/ipc.rs             (socket_path, IpcCmd, IpcResp, send_cmd)
  - src/application/media_control_service.rs (MediaControlService)
  - src/sample_audio_recoder.rs (finalize: f32 samples to 16-bit PCM)

  Machine floats are modelled as exact rationals: every float literal used by
  the claims (1.5, -2.0, 1.0, -1.0, 32767.0) is exactly representable in f32
  and the operations on them are exact, so the rational model agrees with the
  f32 computation at each disputed point.
-/

namespace VoiceInput

/-! # Audio finalize (src/sample_audio_recoder.rs, lines 69-77)

Rust source:
  let clamped = sample.max(-1.0).min(1.0);
  let value = (clamped * i16::MAX as f32) as i16;
-/

/-- Model of `sample.max(-1.0).min(1.0)` over exact rationals. -/
def clampSample (s : ℚ) : ℚ := min (max s (-1)) 1

/-- Truncation toward zero, the rounding used by a Rust float-to-int cast. -/
def ratTrunc (q : ℚ) : ℤ := if 0 ≤ q then ⌊q⌋ else ⌈q⌉

/-- Model of the Rust saturating cast from f32 to i16: truncate toward zero,
then saturate to the i16 range. -/
def f32_as_i16 (q : ℚ) : ℤ := max (-32768) (min 32767 (ratTrunc q))

/-- One sample of the finalize loop: clamp, scale by `i16::MAX` (= 32767),
cast to i16. -/
def toPcmSample (s : ℚ) : ℤ := f32_as_i16 (clampSample s * 32767)

/-- The finalize conversion applied to a whole recording buffer. -/
def finalizeSamples (samples : List ℚ) : List ℤ := samples.map toPcmSample

/-! # Media control service (src/application/media_control_service.rs)

The service owns the flag `paused_by_recording`; the external player state is
the boolean `playing`. `pause_if_playing` has two paths: one through an
injected `MediaController` (the capability interface, used by the tests) and
one through the real Apple Music helpers. Calls into the player are traced as
events so that "does not invoke pause/resume" is provable. -/

inductive MediaEvent where
  | isPlayingQuery
  | pauseCall
  | resumeCall
deriving DecidableEq

/-- Combined state: the external media player and the service flag. -/
structure MediaWorld where
  playing : Bool
  pausedByRecording : Bool
deriving DecidableEq

/-- Mock-controller path of `pause_if_playing` (lines 40-52): query
`is_playing`; if playing, call `pause`, set the flag to true and return
true; otherwise return false with no state change. -/
def pause_if_playing_mock (w : MediaWorld) : MediaWorld × Bool × List MediaEvent :=
  if w.playing then
    ({ playing := false, pausedByRecording := true }, true, [.isPlayingQuery, .pauseCall])
  else
    (w, false, [.isPlayingQuery])

/-- Modelled from the spec: `pause_apple_music` lives in
src/infrastructure/external/sound.rs, which is not among the observed
sources. Per the media player collaborator contract (`is_playing() -> bool`,
`pause()`), it pauses the player when it is playing and returns whether it
was playing. Input is the player state; output is
(was_playing, new player state, player calls made). -/
def pause_apple_music (playing : Bool) : Bool × Bool × List MediaEvent :=
  if playing then (true, false, [.isPlayingQuery, .pauseCall])
  else (false, false, [.isPlayingQuery])

/-- Modelled from the spec: `resume_apple_music` (same missing file). Per the
collaborator contract, `resume` starts playback. Output is the new player
state and the calls made. -/
def resume_apple_music : Bool × List MediaEvent := (true, [.resumeCall])

/-- Real-player path of `pause_if_playing` (lines 54-62): call
`pause_apple_music`, then assign the returned `was_playing` to the flag
unconditionally, and return `was_playing`. -/
def pause_if_playing_real (w : MediaWorld) : MediaWorld × Bool × List MediaEvent :=
  let r := pause_apple_music w.playing
  ({ playing := r.2.1, pausedByRecording := r.1 }, r.1, r.2.2)

/-- Model of `resume_if_paused` (lines 66-87): read the flag; when set, call
`resume` on the player (mock controller and real path both resume playback)
and clear the flag; otherwise do nothing. -/
def resume_if_paused (w : MediaWorld) : MediaWorld × List MediaEvent :=
  if w.pausedByRecording then
    ({ playing := true, pausedByRecording := false }, [.resumeCall])
  else
    (w, [])

/-- Model of `reset` (lines 98-104): clear the flag. -/
def reset (w : MediaWorld) : MediaWorld := { w with pausedByRecording := false }

/-- Model of `is_paused_by_recording` (lines 90-95): read the flag. -/
def is_paused_by_recording (w : MediaWorld) : Bool := w.pausedByRecording

/-! # IPC commands and their JSON wire form (src/ipc.rs)

`IpcCmd` derives serde `Serialize`/`Deserialize`; serde maps an
externally-tagged enum to a JSON value (a bare string for a unit variant, a
one-key object for a struct variant), and the serde_json line codec maps JSON
values to UTF-8 lines. The repository-specific content is the value mapping,
which is embedded here on a JSON value type; the generic value-to-string
codec belongs to the serde_json library. -/

/-- JSON values, restricted to the shapes the wire format uses. -/
inductive Json where
  | null
  | bool (b : Bool)
  | str (s : String)
  | obj (fields : List (String × Json))

/-- Model of `IpcCmd` (src/ipc.rs lines 16-36). -/
inductive IpcCmd where
  | start (paste : Bool) (prompt : Option String) (direct_input : Bool)
  | stop
  | toggle (paste : Bool) (prompt : Option String) (direct_input : Bool)
  | status
  | listDevices
  | health
deriving DecidableEq

/-- Model of `IpcResp` (src/ipc.rs lines 39-43). -/
structure IpcResp where
  ok : Bool
  msg : String
deriving DecidableEq

/-- Serde encoding of `Option<String>`: `None` to null, `Some` to a string. -/
def encodeOptString : Option String → Json
  | none => .null
  | some s => .str s

/-- Fields of the `Start` and `Toggle` struct variants, in declaration
order: paste, prompt, direct_input. -/
def startFields (paste : Bool) (prompt : Option String) (direct_input : Bool) :
    List (String × Json) :=
  [("paste", .bool paste), ("prompt", encodeOptString prompt),
    ("direct_input", .bool direct_input)]

/-- Serde serialization of `IpcCmd` to a JSON value: unit variants become
their name as a string, struct variants a single-key object. -/
def encodeIpcCmd : IpcCmd → Json
  | .start p pr d => .obj [("Start", .obj (startFields p pr d))]
  | .stop => .str "Stop"
  | .toggle p pr d => .obj [("Toggle", .obj (startFields p pr d))]
  | .status => .str "Status"
  | .listDevices => .str "ListDevices"
  | .health => .str "Health"

/-- Field lookup in a JSON object, first match wins (serde semantics). -/
def lookupField (name : String) : List (String × Json) → Option Json
  | [] => none
  | (k, v) :: rest => if k = name then some v else lookupField name rest

/-- Serde deserialization of a JSON value as a `bool`. -/
def decodeBool : Json → Option Bool
  | .bool b => some b
  | _ => none

/-- Serde deserialization of a JSON value as an `Option<String>`. -/
def decodeOptString : Json → Option (Option String)
  | .null => some none
  | .str s => some (some s)
  | _ => none

/-- Serde deserialization of the field set shared by `Start` and `Toggle`. -/
def decodeStartFields (fields : List (String × Json)) :
    Option (Bool × Option String × Bool) := do
  let p ← lookupField "paste" fields >>= decodeBool
  let pr ← lookupField "prompt" fields >>= decodeOptString
  let d ← lookupField "direct_input" fields >>= decodeBool
  pure (p, pr, d)

/-- Serde deserialization of `IpcCmd` from a JSON value (externally tagged:
a bare variant-name string, or a one-key object for a struct variant). -/
def decodeIpcCmd : Json → Option IpcCmd
  | .str s =>
    if s = "Stop" then some .stop
    else if s = "Status" then some .status
    else if s = "ListDevices" then some .listDevices
    else if s = "Health" then some .health
    else none
  | .obj [(tag, .obj fields)] =>
    if tag = "Start" then
      (decodeStartFields fields).map fun r => .start r.1 r.2.1 r.2.2
    else if tag = "Toggle" then
      (decodeStartFields fields).map fun r => .toggle r.1 r.2.1 r.2.2
    else none
  | _ => none

/-! # Socket path and send_cmd (src/ipc.rs lines 10-13 and 46-72) -/

/-- Model of `PathBuf::join` with a relative file name: push a separator
unless the directory is empty or already ends with one. -/
def joinPath (dir file : String) : String :=
  if dir = "" then file
  else if dir.data.getLast? = some '/' then dir ++ file
  else dir ++ "/" ++ file

/-- Model of `socket_path`: the `TMPDIR` environment variable (none when
unset), defaulted to "/tmp", joined with the fixed file name
"voice_input.sock". -/
def socket_path (tmpdir : Option String) : String :=
  joinPath (tmpdir.getD "/tmp") "voice_input.sock"

/-- Observable interactions of `send_cmd` with the daemon socket. -/
inductive IpcEvent where
  | connectAttempt
  | sendLine (payload : Json)
  | recvLine

/-- Environment `send_cmd` runs against: whether the socket path exists,
whether `UnixStream::connect` fails (with what message), and what the first
item of the framed line stream is: `none` when the daemon closes the
connection before a full line is delivered, `some (.error e)` on a codec
error, `some (.ok line)` for a received line. -/
structure IpcWorld where
  socketExists : Bool
  connectError : Option String
  recv : Option (Except String String)

/-- Model of `send_cmd` (src/ipc.rs lines 46-72). `parseResp` stands for the
serde_json string-level parser of `IpcResp`, an external library function.
The source checks path existence first and returns "daemon socket not found"
without connecting; then connects, sends the serialized command, and pattern
matches `Some(Ok(line))` on the first received item — both a closed stream
and a codec error fall to "no response from daemon". -/
def send_cmd (parseResp : String → Except String IpcResp) (cmd : IpcCmd)
    (w : IpcWorld) : Except String IpcResp × List IpcEvent :=
  if w.socketExists = false then
    (.error "daemon socket not found", [])
  else
    match w.connectError with
    | some e => (.error e, [.connectAttempt])
    | none =>
      match w.recv with
      | some (.ok line) =>
        (parseResp line, [.connectAttempt, .sendLine (encodeIpcCmd cmd), .recvLine])
      | _ =>
        (.error "no response from daemon",
          [.connectAttempt, .sendLine (encodeIpcCmd cmd), .recvLine])

/-! # Client dispatch (src/main.rs) -/

/-- Model of `resolve_direct_input_flag` (src/main.rs lines 107-117). -/
def resolve_direct_input_flag (direct_input no_direct_input : Bool) :
    Except String Bool :=
  match direct_input, no_direct_input with
  | true, true => .error "Cannot specify both --direct-input and --no-direct-input"
  | true, false => .ok true
  | false, true => .ok false
  | false, false => .ok false

/-- Dictionary subcommands (local JSON operations, no transport). -/
inductive DictAction where
  | add (surface replacement : String)
  | remove (surface : String)
  | list

/-- Config subcommands (local operations, no transport). -/
inductive ConfigAction where
  | setDictPath (path : String)

/-- Model of the `Cmd` subcommand enum of the CLI (src/main.rs lines 23-75). -/
inductive CliSubcommand where
  | start (paste : Bool) (prompt : Option String) (direct_input no_direct_input : Bool)
  | stop
  | toggle (paste : Bool) (prompt : Option String) (direct_input no_direct_input : Bool)
  | status
  | health
  | dict (action : DictAction)
  | config (action : ConfigAction)

/-- Model of the parsed CLI (src/main.rs lines 12-21). -/
structure Cli where
  list_devices : Bool
  cmd : Option CliSubcommand

/-- Outcome of one client process run: exit status plus what was printed.
A Rust `main` returning `Err(e)` makes the process print the error and
exit with status 1; that is modelled as exit code 1 with `e` on stderr
(the exact runtime formatting of the message is abstracted). -/
structure ClientRun where
  exitCode : Nat
  stdout : List String
  stderr : List String
deriving DecidableEq

/-- Model of `relay` (src/main.rs lines 221-229): propagate a transport
error; print `msg` on success, or `Error: msg` on an `ok:false` response. -/
def relay (transport : Except String IpcResp) :
    Except String (List String × List String) :=
  match transport with
  | .error e => .error e
  | .ok resp =>
    if resp.ok then .ok ([resp.msg], []) else .ok ([], ["Error: " ++ resp.msg])

/-- Lift the result of the `main` body to a process outcome. -/
def finishMain (r : Except String (List String × List String)) : ClientRun :=
  match r with
  | .ok (out, err) => ⟨0, out, err⟩
  | .error e => ⟨1, [], [e]⟩

/-- Model of the client `main` (src/main.rs lines 119-219). `transport` is
the result `send_cmd` would produce for this invocation. The
`--list-devices` branch prints any error itself and then returns `Ok(())`;
the relayed subcommands propagate transport errors out of `main`; a missing
subcommand defaults to `Toggle` with default flags; dictionary and config
subcommands never touch the transport (their local effects are abstracted
to a successful run). -/
def run_client (cli : Cli) (transport : Except String IpcResp) : ClientRun :=
  if cli.list_devices then
    match transport with
    | .ok resp => if resp.ok then ⟨0, [resp.msg], []⟩ else ⟨0, [], ["Error: " ++ resp.msg]⟩
    | .error e => ⟨0, [], ["Error: " ++ e]⟩
  else
    match cli.cmd.getD (.toggle false none false false) with
    | .start _ _ di ndi =>
      match resolve_direct_input_flag di ndi with
      | .error e => ⟨1, [], [e]⟩
      | .ok _ => finishMain (relay transport)
    | .stop => finishMain (relay transport)
    | .toggle _ _ di ndi =>
      match resolve_direct_input_flag di ndi with
      | .error e => ⟨1, [], [e]⟩
      | .ok _ => finishMain (relay transport)
    | .status => finishMain (relay transport)
    | .health => finishMain (relay transport)
    | .dict _ => ⟨0, [], []⟩
    | .config _ => ⟨0, [], []⟩

/-- Whether this invocation reaches the `relay` helper, i.e. sends its
command through the transport with errors propagated out of `main`. -/
def reachesRelay (cli : Cli) : Bool :=
  if cli.list_devices then false
  else
    match cli.cmd.getD (.toggle false none false false) with
    | .start _ _ di ndi => !(di && ndi)
    | .stop => true
    | .toggle _ _ di ndi => !(di && ndi)
    | .status => true
    | .health => true
    | .dict _ => false
    | .config _ => false

/-! # Helper lemmas -/

/-- Truncation toward zero stays inside symmetric rational bounds. -/
theorem ratTrunc_bounds (q : ℚ) (h1 : -32767 ≤ q) (h2 : q ≤ 32767) :
    -32767 ≤ ratTrunc q ∧ ratTrunc q ≤ 32767 := by
  unfold ratTrunc
  split
  case isTrue h =>
    refine ⟨?_, ?_⟩
    · have h0 : (0:ℤ) ≤ ⌊q⌋ := Int.floor_nonneg.mpr h
      omega
    · have hf : (⌊q⌋ : ℚ) ≤ 32767 := le_trans (Int.floor_le q) h2
      exact_mod_cast hf
  case isFalse h =>
    refine ⟨?_, ?_⟩
    · have hf : (-32767 : ℚ) ≤ (⌈q⌉ : ℚ) := le_trans h1 (Int.le_ceil q)
      exact_mod_cast hf
    · have h0 : ⌈q⌉ ≤ (0:ℤ) :=
        Int.ceil_le.mpr (by exact_mod_cast le_of_lt (not_le.mp h))
      omega

/-- Every finalized sample lies in [-32767, 32767]: the conversion clamps
and never wraps, and the most negative producible value is -32767. -/
theorem toPcmSample_bounds (s : ℚ) : -32767 ≤ toPcmSample s ∧ toPcmSample s ≤ 32767 := by
  have hc1 : -1 ≤ clampSample s := le_min (le_max_right _ _) (by norm_num)
  have hc2 : clampSample s ≤ 1 := min_le_right _ _
  have hq1 : (-32767 : ℚ) ≤ clampSample s * 32767 := by nlinarith
  have hq2 : clampSample s * 32767 ≤ 32767 := by nlinarith
  obtain ⟨t1, t2⟩ := ratTrunc_bounds _ hq1 hq2
  unfold toPcmSample f32_as_i16
  constructor
  · calc (-32767 : ℤ) ≤ ratTrunc (clampSample s * 32767) := t1
      _ ≤ _ := by
        rw [min_eq_right t2]
        exact le_max_right _ _
  · rw [min_eq_right t2,
      max_eq_right (by omega : (-32768:ℤ) ≤ ratTrunc (clampSample s * 32767))]
    exact t2

/-! # Claim theorems -/

/-- C1 counterexample: on the samples [1.5, -2.0, 0.3] the second PCM value
produced by the finalize conversion is -32767, not the -32768 the claim
states (the scale factor is `i16::MAX` = 32767, so -1.0 maps to -32767). -/
theorem C1_counterexample :
    (finalizeSamples [3/2, -2, 3/10]).get? 1 = some (-32767) ∧
    (-32767 : ℤ) ≠ -32768 := by
  constructor
  · norm_num [finalizeSamples, toPcmSample, f32_as_i16, ratTrunc, clampSample,
      Int.ceil_neg]
  · decide

/-- C1 amended: finalize clamps each sample to [-1, 1] before scaling by
32767 and never wraps — every output lies in [-32767, 32767] — and the
samples [1.5, -2.0, 0.3] clamp to [1.0, -1.0, 0.3] and yield the PCM values
[32767, -32767, 9830]. -/
theorem C1_theorem :
    (∀ s : ℚ, -32767 ≤ toPcmSample s ∧ toPcmSample s ≤ 32767) ∧
    List.map clampSample [3/2, -2, 3/10] = [1, -1, 3/10] ∧
    finalizeSamples [3/2, -2, 3/10] = [32767, -32767, 9830] := by
  refine ⟨toPcmSample_bounds, ?_, ?_⟩ <;>
    norm_num [finalizeSamples, toPcmSample, f32_as_i16, ratTrunc, clampSample,
      Int.ceil_neg]

/-- C2 counterexample: starting from a fresh service with the player
playing, one `pause_if_playing` through the real-player path sets the flag;
a second `pause_if_playing` call then changes the flag from true back to
false, so `pause_if_playing` does not only change the flag from false to
true. -/
theorem C2_counterexample :
    (pause_if_playing_real ⟨true, false⟩).1.pausedByRecording = true ∧
    (pause_if_playing_real
      (pause_if_playing_real ⟨true, false⟩).1).1.pausedByRecording = false := by
  decide

/-- C2 amended: with an injected mock controller, `pause_if_playing` only
ever raises the flag (its new value is the old flag OR-ed with the playing
state); `resume_if_paused` and `reset` always leave the flag cleared and
`is_paused_by_recording` only reads it. In the real-player path, however,
`pause_if_playing` overwrites the flag with the current playing state, which
clears a set flag when the player is already paused. -/
theorem C2_theorem : ∀ w : MediaWorld,
    (pause_if_playing_mock w).1.pausedByRecording = (w.pausedByRecording || w.playing) ∧
    (resume_if_paused w).1.pausedByRecording = false ∧
    (reset w).pausedByRecording = false ∧
    is_paused_by_recording w = w.pausedByRecording ∧
    (pause_if_playing_real w).1.pausedByRecording = w.playing := by
  intro w
  obtain ⟨p, f⟩ := w
  cases p <;> cases f <;> exact ⟨rfl, rfl, rfl, rfl, rfl⟩

/-- C3 counterexample: in the real-player path, with the player already
paused and the flag set, `pause_if_playing` is not a no-op on the service
state — it clears the `paused_by_recording` flag. -/
theorem C3_counterexample :
    (⟨false, true⟩ : MediaWorld).playing = false ∧
    (pause_if_playing_real ⟨false, true⟩).1.pausedByRecording ≠
      (⟨false, true⟩ : MediaWorld).pausedByRecording := by
  decide

/-- C3 amended: when the player is not playing, `pause_if_playing` returns
false and never calls `pause` on the player; through the mock controller it
also leaves the whole state unchanged, while the real-player path
additionally overwrites the flag with false. -/
theorem C3_theorem : ∀ w : MediaWorld, w.playing = false →
    pause_if_playing_mock w = (w, false, [MediaEvent.isPlayingQuery]) ∧
    pause_if_playing_real w =
      ({ playing := false, pausedByRecording := false }, false,
        [MediaEvent.isPlayingQuery]) := by
  intro w h
  obtain ⟨p, f⟩ := w
  simp only at h
  subst h
  exact ⟨rfl, rfl⟩

/-- C3 witness: the amended claim at the concrete state (not playing, flag
clear). -/
theorem C3_witness :
    (⟨false, false⟩ : MediaWorld).playing = false ∧
    pause_if_playing_mock ⟨false, false⟩ =
      (⟨false, false⟩, false, [MediaEvent.isPlayingQuery]) :=
  ⟨rfl, (C3_theorem ⟨false, false⟩ rfl).1⟩

/-- C4: from a playing player with a clear flag, `pause_if_playing` followed
by `resume_if_paused` restores the original state (player playing, flag
clear) in both the mock and the real path, and an immediately repeated
`resume_if_paused` returns the state unchanged with no player call. -/
theorem C4_theorem : ∀ w : MediaWorld, w.playing = true → w.pausedByRecording = false →
    ((resume_if_paused (pause_if_playing_mock w).1).1 = w ∧
      resume_if_paused (resume_if_paused (pause_if_playing_mock w).1).1 =
        ((resume_if_paused (pause_if_playing_mock w).1).1, [])) ∧
    ((resume_if_paused (pause_if_playing_real w).1).1 = w ∧
      resume_if_paused (resume_if_paused (pause_if_playing_real w).1).1 =
        ((resume_if_paused (pause_if_playing_real w).1).1, [])) := by
  intro w h1 h2
  obtain ⟨p, f⟩ := w
  simp only at h1 h2
  subst h1
  subst h2
  exact ⟨⟨rfl, rfl⟩, ⟨rfl, rfl⟩⟩

/-- C4 witness: the pause-resume-resume sequence at the concrete starting
state (playing, flag clear), mock path. -/
theorem C4_witness :
    (⟨true, false⟩ : MediaWorld).playing = true ∧
    (⟨true, false⟩ : MediaWorld).pausedByRecording = false ∧
    (resume_if_paused (pause_if_playing_mock ⟨true, false⟩).1).1 = ⟨true, false⟩ :=
  ⟨rfl, rfl, ((C4_theorem ⟨true, false⟩ rfl rfl).1).1⟩

/-- C5: deserializing the serialized JSON wire form of any `IpcCmd` yields
the original command; in particular `Start{paste:false, prompt:None,
direct_input:true}` round-trips identically. -/
theorem C5_theorem :
    (∀ c : IpcCmd, decodeIpcCmd (encodeIpcCmd c) = some c) ∧
    decodeIpcCmd (encodeIpcCmd (.start false none true)) =
      some (.start false none true) := by
  have h : ∀ c : IpcCmd, decodeIpcCmd (encodeIpcCmd c) = some c := by
    intro c
    cases c with
    | start p pr d => cases pr <;> rfl
    | toggle p pr d => cases pr <;> rfl
    | stop => rfl
    | status => rfl
    | listDevices => rfl
    | health => rfl
  exact ⟨h, h _⟩

/-- C6 counterexample: under the `--list-devices` flag the client prints the
transport error but returns `Ok(())`, so the process exits with status 0,
not a non-zero status. -/
theorem C6_counterexample :
    (run_client ⟨true, none⟩ (.error "daemon socket not found")).exitCode = 0 ∧
    (run_client ⟨true, none⟩ (.error "daemon socket not found")).stderr =
      ["Error: daemon socket not found"] :=
  ⟨rfl, rfl⟩

/-- C6 amended: for every invocation whose command is relayed through the
transport (Start/Stop/Toggle/Status/Health, without conflicting direct-input
flags and without `--list-devices`), a transport failure propagates out of
`main`: the error is printed and the process exits non-zero. The
`--list-devices` path instead prints the error and exits 0. -/
theorem C6_theorem : ∀ (cli : Cli) (e : String), reachesRelay cli = true →
    run_client cli (.error e) = ⟨1, [], [e]⟩ := by
  intro cli e h
  obtain ⟨ld, cmd⟩ := cli
  cases ld
  case true => exact Bool.noConfusion h
  case false =>
    cases cmd with
    | none => rfl
    | some sc =>
      cases sc with
      | start p pr di ndi =>
        cases di <;> cases ndi <;> first | rfl | exact Bool.noConfusion h
      | toggle p pr di ndi =>
        cases di <;> cases ndi <;> first | rfl | exact Bool.noConfusion h
      | stop => rfl
      | status => rfl
      | health => rfl
      | dict a => exact Bool.noConfusion h
      | config a => exact Bool.noConfusion h

/-- C6 witness: the amended claim at a concrete `status` invocation with a
socket-not-found transport failure. -/
theorem C6_witness :
    reachesRelay ⟨false, some .status⟩ = true ∧
    run_client ⟨false, some .status⟩ (.error "daemon socket not found") =
      ⟨1, [], ["daemon socket not found"]⟩ :=
  ⟨rfl, C6_theorem ⟨false, some .status⟩ "daemon socket not found" rfl⟩

/-- C7: when the daemon socket path does not exist, `send_cmd` fails with
"daemon socket not found" and performs no connection attempt (its event
trace is empty), for every command and every parser. -/
theorem C7_theorem : ∀ (parseResp : String → Except String IpcResp)
    (cmd : IpcCmd) (w : IpcWorld), w.socketExists = false →
    send_cmd parseResp cmd w = (.error "daemon socket not found", []) := by
  intro p c w h
  simp [send_cmd, h]

/-- C7 witness: the claim at a concrete world without a socket. -/
theorem C7_witness :
    (⟨false, none, none⟩ : IpcWorld).socketExists = false ∧
    send_cmd (fun _ => .error "parse") .status ⟨false, none, none⟩ =
      (.error "daemon socket not found", []) :=
  ⟨rfl, C7_theorem (fun _ => .error "parse") .status ⟨false, none, none⟩ rfl⟩

/-- C8: when the socket exists, the connection succeeds and the daemon
closes the stream before a full line is delivered, `send_cmd` fails with
"no response from daemon". -/
theorem C8_theorem : ∀ (parseResp : String → Except String IpcResp)
    (cmd : IpcCmd) (w : IpcWorld),
    w.socketExists = true → w.connectError = none → w.recv = none →
    send_cmd parseResp cmd w =
      (.error "no response from daemon",
        [.connectAttempt, .sendLine (encodeIpcCmd cmd), .recvLine]) := by
  intro p c w h1 h2 h3
  simp [send_cmd, h1, h2, h3]

/-- C8 witness: the claim at a concrete world whose stream closes without
delivering a line. -/
theorem C8_witness :
    (⟨true, none, none⟩ : IpcWorld).socketExists = true ∧
    (⟨true, none, none⟩ : IpcWorld).connectError = (none : Option String) ∧
    (⟨true, none, none⟩ : IpcWorld).recv = (none : Option (Except String String)) ∧
    send_cmd (fun _ => .error "parse") .health ⟨true, none, none⟩ =
      (.error "no response from daemon",
        [.connectAttempt, .sendLine (encodeIpcCmd .health), .recvLine]) :=
  ⟨rfl, rfl, rfl,
    C8_theorem (fun _ => .error "parse") .health ⟨true, none, none⟩ rfl rfl rfl⟩

/-- C9: `socket_path` joins the fixed file name "voice_input.sock" to the
`TMPDIR` value when set and to "/tmp" when unset; as a pure function of the
environment it is deterministic. -/
theorem C9_theorem :
    socket_path none = "/tmp/voice_input.sock" ∧
    socket_path (some "/var/folders/zz") = "/var/folders/zz/voice_input.sock" ∧
    (∀ d : String, socket_path (some d) = joinPath d "voice_input.sock") ∧
    socket_path (some "/tmp") = socket_path none := by
  exact ⟨by decide, by decide, fun d => rfl, rfl⟩

/-- C10: `resolve_direct_input_flag` errors exactly when both flags are
given, and otherwise resolves to the value of `direct_input` — in
particular to false when neither flag is given. -/
theorem C10_theorem : ∀ di ndi : Bool,
    resolve_direct_input_flag di ndi =
      (if di && ndi then
        .error "Cannot specify both --direct-input and --no-direct-input"
      else .ok di) := by
  intro di ndi
  cases di <;> cases ndi <;> rfl

end VoiceInput
